import Mathlib

/-!
Verification of the fake-trello backend core logic: the role/action
permission matrix, the event dispatcher and its notification/email
handlers, the fractional position allocator for board lists, and the
workspace-invitation respond flow.

Modelling conventions used throughout this file:
* UUIDs are modelled as `Nat` (a Python UUID value is always truthy, so
  the truthiness test on an optional UUID field is `Option.isSome`).
* Python floats are modelled as `ℚ`: every position value the code
  manipulates here is an integral multiple of 65536.0 far below 2^53,
  so IEEE double arithmetic on them is exact and agrees with `ℚ`.
* Database rows live in plain lists; a SQL `where` clause becomes
  `List.filter`, a primary-key lookup becomes `List.find?`.
* A fallible route handler returns `Except Nat α` where the `Nat` is the
  HTTP status code of the raised `HTTPException`.
-/

namespace FakeTrello

/-! ## Roles and actions (app/models/enums.py, app/core/permissions.py) -/

inductive MemberRole
  | admin
  | member
  | observer
deriving DecidableEq, Fintype

inductive Action
  | INVITE_MEMBER
  | REMOVE_MEMBER
  | CREATE_BOARD
  | EDIT_BOARD
  | DELETE_BOARD
  | VIEW_BOARD
  | CREATE_LIST
  | EDIT_LIST
  | DELETE_LIST
  | CREATE_CARD
  | EDIT_CARD
  | DELETE_CARD
  | MOVE_CARD
  | CREATE_COMMENT
  | DELETE_ANY_COMMENT
  | CREATE_CHECKLIST
  | TOGGLE_CHECKLIST
deriving DecidableEq, Fintype

/-- The static permission table `PERMISSIONS` of app/core/permissions.py,
kept in the same entry order as the Python dict literal. -/
def PERMISSIONS : List (Action × List MemberRole) :=
  [ (.INVITE_MEMBER, [.admin]),
    (.REMOVE_MEMBER, [.admin]),
    (.CREATE_BOARD, [.admin, .member]),
    (.EDIT_BOARD, [.admin, .member]),
    (.DELETE_BOARD, [.admin]),
    (.VIEW_BOARD, [.admin, .member, .observer]),
    (.CREATE_LIST, [.admin, .member]),
    (.EDIT_LIST, [.admin, .member]),
    (.DELETE_LIST, [.admin, .member]),
    (.CREATE_CARD, [.admin, .member]),
    (.EDIT_CARD, [.admin, .member]),
    (.DELETE_CARD, [.admin, .member]),
    (.MOVE_CARD, [.admin, .member]),
    (.CREATE_COMMENT, [.admin, .member, .observer]),
    (.DELETE_ANY_COMMENT, [.admin]),
    (.CREATE_CHECKLIST, [.admin, .member]),
    (.TOGGLE_CHECKLIST, [.admin, .member, .observer]) ]

/-- `PERMISSIONS.get(action, [])`: table lookup defaulting to the empty
allow-list for an absent action. -/
def permissionsGet (action : Action) : List MemberRole :=
  (PERMISSIONS.lookup action).getD []

/-- `has_permission` from app/core/permissions.py. -/
def has_permission (role : Option MemberRole) (action : Action)
    (is_owner : Bool) : Bool :=
  if is_owner then
    true
  else
    match role with
    | none => false
    | some r => (permissionsGet action).contains r

/-- `get_allowed_roles` from app/core/permissions.py. -/
def get_allowed_roles (action : Action) : List MemberRole :=
  permissionsGet action

/-- Modelled from the spec: the reference permission rule of the claim.
Owner override first, then deny on missing role, then a table in which
admin is allowed everything, member is allowed everything except the four
membership-management and destructive actions, and observer is allowed
exactly viewing boards, creating comments and toggling checklist items. -/
def refAllows (r : MemberRole) (a : Action) : Bool :=
  match r with
  | .admin => true
  | .member =>
      !([Action.INVITE_MEMBER, .REMOVE_MEMBER, .DELETE_BOARD,
         .DELETE_ANY_COMMENT].contains a)
  | .observer =>
      [Action.VIEW_BOARD, .CREATE_COMMENT, .TOGGLE_CHECKLIST].contains a

/-- Modelled from the spec: `has_permission` as the claim describes it. -/
def has_permission_ref (role : Option MemberRole) (action : Action)
    (is_owner : Bool) : Bool :=
  if is_owner then
    true
  else
    match role with
    | none => false
    | some r => refAllows r action

/-- C1: `has_permission` agrees with the reference definition everywhere:
owner override for every role including none, deny without a role, and
otherwise lookup in the configured table, whose rows for observer, member
and admin are exactly as the claim lists them. -/
theorem C1_has_permission_matches_reference :
    (∀ (role : Option MemberRole) (a : Action) (o : Bool),
        has_permission role a o = has_permission_ref role a o)
    ∧ (∀ (role : Option MemberRole) (a : Action),
        has_permission role a true = true)
    ∧ (∀ a : Action, has_permission none a false = false)
    ∧ (∀ (r : MemberRole) (a : Action),
        has_permission (some r) a false = (get_allowed_roles a).contains r)
    ∧ (∀ a : Action,
        (get_allowed_roles a).contains .observer =
          (a = .VIEW_BOARD ∨ a = .CREATE_COMMENT ∨ a = .TOGGLE_CHECKLIST))
    ∧ (∀ a : Action,
        (get_allowed_roles a).contains .member =
          !(a = .INVITE_MEMBER ∨ a = .REMOVE_MEMBER ∨ a = .DELETE_BOARD ∨
            a = .DELETE_ANY_COMMENT))
    ∧ (∀ a : Action, (get_allowed_roles a).contains .admin = true) := by
  refine ⟨?_, ?_, ?_, ?_, ?_, ?_, ?_⟩ <;> decide

/-! ## Event types (app/events/types.py) -/

/-- The exact runtime type of an event; the dispatcher keys its handler
registry on this (exact type match, no subtype matching). -/
inductive EventType
  | CardMovedE
  | CommentAddedE
  | ChecklistToggledE
  | CardAssignedE
  | InvitationSentE
  | InvitationRespondedE
  | WelcomeEmailSentE
deriving DecidableEq, Fintype

structure CardMovedEvent where
  card_id : Nat
  card_title : String
  old_list_name : String
  new_list_name : String
  moved_by_id : Nat
  moved_by_name : String
  card_owner_id : Option Nat := none
  card_owner_email : Option String := none
  card_assignee_id : Option Nat := none
  card_assignee_email : Option String := none
deriving DecidableEq

structure CommentAddedEvent where
  card_id : Nat
  card_title : String
  comment_content : String
  commenter_id : Nat
  commenter_name : String
  card_owner_id : Option Nat := none
  card_owner_email : Option String := none
  card_assignee_id : Option Nat := none
  card_assignee_email : Option String := none
deriving DecidableEq

structure ChecklistToggledEvent where
  card_id : Nat
  card_title : String
  item_title : String
  is_completed : Bool
  toggled_by_id : Nat
  toggled_by_name : String
  card_owner_id : Option Nat := none
  card_owner_email : Option String := none
  card_assignee_id : Option Nat := none
  card_assignee_email : Option String := none
deriving DecidableEq

structure CardAssignedEvent where
  card_id : Nat
  card_title : String
  assigned_by_id : Nat
  assigned_by_name : String
  assignee_id : Nat
  assignee_email : String
deriving DecidableEq

structure InvitationSentEvent where
  invitation_id : Nat
  workspace_id : Nat
  workspace_name : String
  inviter_id : Nat
  inviter_name : String
  invitee_id : Nat
  invitee_email : String
deriving DecidableEq

structure InvitationRespondedEvent where
  invitation_id : Nat
  workspace_id : Nat
  workspace_name : String
  accepted : Bool
  responder_id : Nat
  responder_name : String
  inviter_id : Nat
deriving DecidableEq

structure WelcomeEmailSentEvent where
  user_id : Nat
  user_email : String
deriving DecidableEq

/-- An event value together with its concrete runtime type. -/
inductive Event
  | cardMoved (e : CardMovedEvent)
  | commentAdded (e : CommentAddedEvent)
  | checklistToggled (e : ChecklistToggledEvent)
  | cardAssigned (e : CardAssignedEvent)
  | invitationSent (e : InvitationSentEvent)
  | invitationResponded (e : InvitationRespondedEvent)
  | welcomeEmailSent (e : WelcomeEmailSentEvent)
deriving DecidableEq

/-- `type(event)` in Python. -/
def Event.typeOf : Event → EventType
  | .cardMoved _ => .CardMovedE
  | .commentAdded _ => .CommentAddedE
  | .checklistToggled _ => .ChecklistToggledE
  | .cardAssigned _ => .CardAssignedE
  | .invitationSent _ => .InvitationSentE
  | .invitationResponded _ => .InvitationRespondedE
  | .welcomeEmailSent _ => .WelcomeEmailSentE

/-! ## Event dispatcher (app/events/base.py)

A handler invocation is modelled by the list of side effects it performed
plus the exception it raised, if any.  `dispatchLoop` is the translation
of the for-loop in `EventDispatcher.dispatch`: the per-iteration
`try/except` turns a raised exception into a logged error message and the
loop continues, so the loop as a whole is a total function — this is
exactly the no-propagation behaviour of the source. -/

structure HandlerRun (Eff : Type) where
  effects : List Eff
  raises : Option String
deriving DecidableEq

/-- The body of `EventDispatcher.dispatch`: invoke each handler in list
order, catching and logging the exception of a handler that raises. -/
def dispatchLoop {H Eff : Type} (run : H → Event → HandlerRun Eff)
    (ev : Event) : List H → List Eff × List String
  | [] => ([], [])
  | h :: hs =>
    let r := run h ev
    let rest := dispatchLoop run ev hs
    (r.effects ++ rest.1,
     (match r.raises with | some m => [m] | none => []) ++ rest.2)

/-- The mutable class-level registry of `EventDispatcher`:
`_handlers` (total function defaulting to the empty list, mirroring
`dict.get(event_type, [])`) plus the `_initialized` flag. -/
structure DispatcherState (H : Type) where
  handlers : EventType → List H
  initDone : Bool

/-- The registry as it stands before any registration (and after
`clear()`). -/
def emptyDispatcher (H : Type) : DispatcherState H :=
  ⟨fun _ => [], false⟩

/-- `EventDispatcher.register`: append the handler to the list for the
event type (no de-duplication). -/
def register {H : Type} (s : DispatcherState H) (et : EventType) (h : H) :
    DispatcherState H :=
  { s with
    handlers := fun t => if t = et then s.handlers t ++ [h] else s.handlers t }

/-- `EventDispatcher.dispatch`: look up the exact runtime type of the
event in the registry and run every handler registered for it. -/
def dispatch {H Eff : Type} (run : H → Event → HandlerRun Eff)
    (s : DispatcherState H) (ev : Event) : List Eff × List String :=
  dispatchLoop run ev (s.handlers ev.typeOf)

/-- The two handler functions that `initialize()` registers, by name. -/
inductive AppHandler
  | notificationHandler
  | emailHandler
deriving DecidableEq

/-- `EventDispatcher.initialize`: idempotent wiring of the two app
handlers, in the exact registration order of the source. -/
def initDispatcher (s : DispatcherState AppHandler) :
    DispatcherState AppHandler :=
  if s.initDone then s
  else
    let s1 := register s .CardMovedE .notificationHandler
    let s2 := register s1 .CommentAddedE .notificationHandler
    let s3 := register s2 .ChecklistToggledE .notificationHandler
    let s4 := register s3 .InvitationSentE .notificationHandler
    let s5 := register s4 .InvitationRespondedE .notificationHandler
    let s6 := register s5 .CardMovedE .emailHandler
    let s7 := register s6 .CommentAddedE .emailHandler
    let s8 := register s7 .ChecklistToggledE .emailHandler
    { s8 with initDone := true }

/-- C2 counterexample: after `initialize()` on a fresh registry, the
email handler is not registered for `InvitationSentEvent` (nor for
`InvitationRespondedEvent`), and no handler at all is registered for the
welcome-email event, contradicting the claim that every one of the five
event types dispatches to both handler categories with the welcome email
covered by the email handler. -/
theorem C2_counterexample :
    ¬ (((initDispatcher (emptyDispatcher AppHandler)).handlers
          .InvitationSentE).contains .emailHandler
       ∧ ((initDispatcher (emptyDispatcher AppHandler)).handlers
          .InvitationRespondedE).contains .emailHandler
       ∧ ((initDispatcher (emptyDispatcher AppHandler)).handlers
          .WelcomeEmailSentE).contains .emailHandler) := by
  decide

/-- C2 amended: after `initialize()` has run, each of the five
notification-worthy event types has the in-app notification handler, but
the email handler is additionally registered only for the three
card-scoped events; the invitation events get the notification handler
alone, and the welcome-email and card-assigned events have no handlers at
all. -/
theorem C2_initialize_registrations :
    ((initDispatcher (emptyDispatcher AppHandler)).handlers .CardMovedE =
        [.notificationHandler, .emailHandler])
    ∧ ((initDispatcher (emptyDispatcher AppHandler)).handlers .CommentAddedE =
        [.notificationHandler, .emailHandler])
    ∧ ((initDispatcher (emptyDispatcher AppHandler)).handlers
        .ChecklistToggledE = [.notificationHandler, .emailHandler])
    ∧ ((initDispatcher (emptyDispatcher AppHandler)).handlers
        .InvitationSentE = [.notificationHandler])
    ∧ ((initDispatcher (emptyDispatcher AppHandler)).handlers
        .InvitationRespondedE = [.notificationHandler])
    ∧ ((initDispatcher (emptyDispatcher AppHandler)).handlers
        .WelcomeEmailSentE = [])
    ∧ ((initDispatcher (emptyDispatcher AppHandler)).handlers
        .CardAssignedE = []) := by
  decide

/-- C4: `dispatch` runs every handler registered for the exact runtime
type of the event, in registration order: the effects of the whole
dispatch are the concatenation, in list order, of each handler's effects
(so a raising handler never prevents a later handler from running), the
log collects exactly the raised exceptions in order, and no exception
escapes — `dispatchLoop` is total and its result is always this normal
value. -/
theorem C4_dispatch_isolation {H Eff : Type}
    (run : H → Event → HandlerRun Eff) (s : DispatcherState H)
    (handlers : List H) (ev : Event) :
    dispatch run s ev = dispatchLoop run ev (s.handlers ev.typeOf)
    ∧ (dispatchLoop run ev handlers).1 =
        (handlers.map (fun h => (run h ev).effects)).flatten
    ∧ (dispatchLoop run ev handlers).2 =
        handlers.filterMap (fun h => (run h ev).raises) := by
  refine ⟨rfl, ?_, ?_⟩
  · induction handlers with
    | nil => rfl
    | cons h hs ih => simp [dispatchLoop, ih]
  · induction handlers with
    | nil => rfl
    | cons h hs ih =>
      simp only [dispatchLoop, List.filterMap_cons]
      cases hr : (run h ev).raises <;> simp [hr, ih]

/-- C10: dispatching an event whose exact runtime type has no entry in
the registry invokes zero handlers — no effects, no logs — and returns
normally; in particular every dispatch against the registry as it stands
before `initialize()` has ever run (the state in which the OAuth
callback fires `WelcomeEmailSentEvent`, since nothing in the application
ever calls `initialize()`) behaves this way, and even after
`initialize()` the welcome-email type still has no entry. -/
theorem C10_unregistered_event_dispatch {H Eff : Type}
    (run : H → Event → HandlerRun Eff) (s : DispatcherState H) (ev : Event)
    (hnone : s.handlers ev.typeOf = []) :
    dispatch run s ev = ([], [])
    ∧ (∀ (run2 : H → Event → HandlerRun Eff) (ev2 : Event),
        dispatch run2 (emptyDispatcher H) ev2 = ([], []))
    ∧ (∀ (run3 : AppHandler → Event → HandlerRun Eff)
        (w : WelcomeEmailSentEvent),
        dispatch run3 (initDispatcher (emptyDispatcher AppHandler))
          (.welcomeEmailSent w) = ([], [])) := by
  refine ⟨?_, ?_, ?_⟩
  · simp [dispatch, hnone, dispatchLoop]
  · intro run2 ev2
    rfl
  · intro run3 w
    rfl

/-- C10 witness: the welcome-email event of the first OAuth signup,
dispatched against the never-initialized registry, produces nothing. -/
theorem C10_witness :
    dispatch (fun (_ : AppHandler) (_ : Event) =>
        HandlerRun.mk ([] : List Nat) none)
      (emptyDispatcher AppHandler) (.welcomeEmailSent ⟨1, "new@user"⟩) =
      ([], []) :=
  (C10_unregistered_event_dispatch
    (fun (_ : AppHandler) (_ : Event) => HandlerRun.mk ([] : List Nat) none)
    (emptyDispatcher AppHandler) (.welcomeEmailSent ⟨1, "new@user"⟩) rfl).1

/-! ## Notification rows and event handlers
(app/models/notifications.py, app/events/handlers.py)

`NotificationRow` keeps the fields the claims are about (recipient, type
and reference); the human-readable title and message strings are not
modelled.  An email send is recorded as recipient plus the template name
(route handlers, which inline their HTML, use the template name "inline").
-/

inductive NotificationType
  | workspace_invitation
  | invitation_accepted
  | invitation_rejected
  | comment_added
  | card_assigned
  | card_due_soon
  | mentioned
  | card_moved
  | checklist_toggled
deriving DecidableEq

structure NotificationRow where
  user_id : Nat
  ntype : NotificationType
  reference_id : Option Nat
  reference_type : Option String
deriving DecidableEq

structure EmailMessage where
  email_to : String
  template : String
deriving DecidableEq

/-- Python truthiness of an optional string: `None` and the empty string
are falsy. -/
def optStrTruthy : Option String → Bool
  | none => false
  | some s => !(s == "")

/-- `_get_notification_target` from app/events/handlers.py, taking the
four optional card fields that every card-scoped event carries (on those
events `hasattr` is always true, and an optional UUID is truthy exactly
when it is present). -/
def getNotificationTarget (assignee_id : Option Nat)
    (assignee_email : Option String) (owner_id : Option Nat)
    (owner_email : Option String) : Option Nat × Option String :=
  if assignee_id.isSome then (assignee_id, assignee_email)
  else if owner_id.isSome then (owner_id, owner_email)
  else (none, none)

/-- The resolved target of a `CardMovedEvent`. -/
def cardMovedTarget (e : CardMovedEvent) : Option Nat × Option String :=
  getNotificationTarget e.card_assignee_id e.card_assignee_email
    e.card_owner_id e.card_owner_email

/-- The resolved target of a `CommentAddedEvent`. -/
def commentTarget (e : CommentAddedEvent) : Option Nat × Option String :=
  getNotificationTarget e.card_assignee_id e.card_assignee_email
    e.card_owner_id e.card_owner_email

/-- The resolved target of a `ChecklistToggledEvent`. -/
def checklistTarget (e : ChecklistToggledEvent) : Option Nat × Option String :=
  getNotificationTarget e.card_assignee_id e.card_assignee_email
    e.card_owner_id e.card_owner_email

/-- `handle_notification` from app/events/handlers.py: the notification
rows it inserts for a given event. -/
def handle_notification : Event → List NotificationRow
  | .cardMoved e =>
    match cardMovedTarget e with
    | (some tid, _) =>
      if tid ≠ e.moved_by_id then
        [⟨tid, .card_moved, some e.card_id, some "card"⟩]
      else []
    | (none, _) => []
  | .commentAdded e =>
    match commentTarget e with
    | (some tid, _) =>
      if tid ≠ e.commenter_id then
        [⟨tid, .comment_added, some e.card_id, some "card"⟩]
      else []
    | (none, _) => []
  | .checklistToggled e =>
    match checklistTarget e with
    | (some tid, _) =>
      if tid ≠ e.toggled_by_id then
        [⟨tid, .checklist_toggled, some e.card_id, some "card"⟩]
      else []
    | (none, _) => []
  | .cardAssigned e =>
    [⟨e.assignee_id, .card_assigned, some e.card_id, some "card"⟩]
  | .invitationSent e =>
    [⟨e.invitee_id, .workspace_invitation, some e.invitation_id,
      some "invitation"⟩]
  | .invitationResponded e =>
    [⟨e.inviter_id,
      if e.accepted then .invitation_accepted else .invitation_rejected,
      some e.workspace_id, some "workspace"⟩]
  | .welcomeEmailSent _ => []

/-- `handle_email` from app/events/handlers.py: the emails it queues for
a given event.  The guard on the card-scoped branches is the literal
source condition: the target email must be truthy and the target id must
differ from the actor id.  The function has no branch for the two
invitation event types, so they queue nothing. -/
def handle_email : Event → List EmailMessage
  | .cardMoved e =>
    let t := cardMovedTarget e
    match t.2 with
    | some em =>
      if em ≠ "" ∧ t.1 ≠ some e.moved_by_id then
        [⟨em, "card_moved.html"⟩]
      else []
    | none => []
  | .commentAdded e =>
    let t := commentTarget e
    match t.2 with
    | some em =>
      if em ≠ "" ∧ t.1 ≠ some e.commenter_id then
        [⟨em, "comment_added.html"⟩]
      else []
    | none => []
  | .checklistToggled e =>
    let t := checklistTarget e
    match t.2 with
    | some em =>
      if em ≠ "" ∧ t.1 ≠ some e.toggled_by_id then
        [⟨em, "checklist_toggled.html"⟩]
      else []
    | none => []
  | .cardAssigned e => [⟨e.assignee_email, "card_assigned.html"⟩]
  | .invitationSent _ => []
  | .invitationResponded _ => []
  | .welcomeEmailSent e => [⟨e.user_email, "welcome.html"⟩]

lemma getNotificationTarget_assignee (a : Nat) (aem : Option String)
    (oid : Option Nat) (oem : Option String) :
    getNotificationTarget (some a) aem oid oem = (some a, aem) := by
  simp [getNotificationTarget]

lemma getNotificationTarget_owner (aem : Option String) (o : Nat)
    (oem : Option String) :
    getNotificationTarget none aem (some o) oem = (some o, oem) := by
  simp [getNotificationTarget]

lemma getNotificationTarget_fst_none {aid : Option Nat} {aem : Option String}
    {oid : Option Nat} {oem : Option String}
    (h : (getNotificationTarget aid aem oid oem).1 = none) :
    getNotificationTarget aid aem oid oem = (none, none) := by
  cases aid <;> cases oid <;> simp_all [getNotificationTarget]

/-- C3: for each of the three card-scoped events the handlers resolve the
recipient as the assignee when set (even when an owner is also set), else
the owner; and when the resolved recipient is the actor, or nothing
resolves, neither a notification row nor an email is produced. -/
theorem C3_card_event_recipient_resolution :
    (∀ e : CardMovedEvent,
      (∀ a, e.card_assignee_id = some a → a ≠ e.moved_by_id →
        (handle_notification (.cardMoved e)).map NotificationRow.user_id
          = [a])
      ∧ (∀ o, e.card_assignee_id = none → e.card_owner_id = some o →
          o ≠ e.moved_by_id →
          (handle_notification (.cardMoved e)).map NotificationRow.user_id
            = [o])
      ∧ (∀ t, (cardMovedTarget e).1 = some t → t = e.moved_by_id →
          handle_notification (.cardMoved e) = []
          ∧ handle_email (.cardMoved e) = [])
      ∧ ((cardMovedTarget e).1 = none →
          handle_notification (.cardMoved e) = []
          ∧ handle_email (.cardMoved e) = []))
    ∧ (∀ e : CommentAddedEvent,
      (∀ a, e.card_assignee_id = some a → a ≠ e.commenter_id →
        (handle_notification (.commentAdded e)).map NotificationRow.user_id
          = [a])
      ∧ (∀ o, e.card_assignee_id = none → e.card_owner_id = some o →
          o ≠ e.commenter_id →
          (handle_notification (.commentAdded e)).map NotificationRow.user_id
            = [o])
      ∧ (∀ t, (commentTarget e).1 = some t → t = e.commenter_id →
          handle_notification (.commentAdded e) = []
          ∧ handle_email (.commentAdded e) = [])
      ∧ ((commentTarget e).1 = none →
          handle_notification (.commentAdded e) = []
          ∧ handle_email (.commentAdded e) = []))
    ∧ (∀ e : ChecklistToggledEvent,
      (∀ a, e.card_assignee_id = some a → a ≠ e.toggled_by_id →
        (handle_notification (.checklistToggled e)).map
          NotificationRow.user_id = [a])
      ∧ (∀ o, e.card_assignee_id = none → e.card_owner_id = some o →
          o ≠ e.toggled_by_id →
          (handle_notification (.checklistToggled e)).map
            NotificationRow.user_id = [o])
      ∧ (∀ t, (checklistTarget e).1 = some t → t = e.toggled_by_id →
          handle_notification (.checklistToggled e) = []
          ∧ handle_email (.checklistToggled e) = [])
      ∧ ((checklistTarget e).1 = none →
          handle_notification (.checklistToggled e) = []
          ∧ handle_email (.checklistToggled e) = [])) := by
  refine ⟨fun e => ⟨?_, ?_, ?_, ?_⟩, fun e => ⟨?_, ?_, ?_, ?_⟩,
    fun e => ⟨?_, ?_, ?_, ?_⟩⟩
  case _ =>
    intro a ha hne
    simp [handle_notification, cardMovedTarget, ha,
      getNotificationTarget_assignee, hne]
  case _ =>
    intro o ha ho hne
    simp [handle_notification, cardMovedTarget, ha, ho,
      getNotificationTarget_owner, hne]
  case _ =>
    intro t ht heq
    rcases htt : cardMovedTarget e with ⟨t1, t2⟩
    rw [htt] at ht
    simp only at ht
    subst ht
    constructor
    · simp [handle_notification, htt, heq]
    · cases t2 with
      | none => simp [handle_email, htt]
      | some em => simp [handle_email, htt, heq]
  case _ =>
    intro ht
    have hfull := @getNotificationTarget_fst_none e.card_assignee_id
      e.card_assignee_email e.card_owner_id e.card_owner_email ht
    constructor
    · simp [handle_notification, cardMovedTarget, hfull]
    · simp [handle_email, cardMovedTarget, hfull]
  case _ =>
    intro a ha hne
    simp [handle_notification, commentTarget, ha,
      getNotificationTarget_assignee, hne]
  case _ =>
    intro o ha ho hne
    simp [handle_notification, commentTarget, ha, ho,
      getNotificationTarget_owner, hne]
  case _ =>
    intro t ht heq
    rcases htt : commentTarget e with ⟨t1, t2⟩
    rw [htt] at ht
    simp only at ht
    subst ht
    constructor
    · simp [handle_notification, htt, heq]
    · cases t2 with
      | none => simp [handle_email, htt]
      | some em => simp [handle_email, htt, heq]
  case _ =>
    intro ht
    have hfull := @getNotificationTarget_fst_none e.card_assignee_id
      e.card_assignee_email e.card_owner_id e.card_owner_email ht
    constructor
    · simp [handle_notification, commentTarget, hfull]
    · simp [handle_email, commentTarget, hfull]
  case _ =>
    intro a ha hne
    simp [handle_notification, checklistTarget, ha,
      getNotificationTarget_assignee, hne]
  case _ =>
    intro o ha ho hne
    simp [handle_notification, checklistTarget, ha, ho,
      getNotificationTarget_owner, hne]
  case _ =>
    intro t ht heq
    rcases htt : checklistTarget e with ⟨t1, t2⟩
    rw [htt] at ht
    simp only at ht
    subst ht
    constructor
    · simp [handle_notification, htt, heq]
    · cases t2 with
      | none => simp [handle_email, htt]
      | some em => simp [handle_email, htt, heq]
  case _ =>
    intro ht
    have hfull := @getNotificationTarget_fst_none e.card_assignee_id
      e.card_assignee_email e.card_owner_id e.card_owner_email ht
    constructor
    · simp [handle_notification, checklistTarget, hfull]
    · simp [handle_email, checklistTarget, hfull]

/-- A card-moved event whose card has owner 7 and assignee 5, moved by
user 9. -/
def c3Event : CardMovedEvent :=
  { card_id := 1, card_title := "t", old_list_name := "a",
    new_list_name := "b", moved_by_id := 9, moved_by_name := "m",
    card_owner_id := some 7, card_owner_email := some "o@x",
    card_assignee_id := some 5, card_assignee_email := some "a@x" }

/-- C3 witness: with both owner and assignee set and distinct from the
actor, the single notification row targets the assignee. -/
theorem C3_witness :
    (handle_notification (.cardMoved c3Event)).map NotificationRow.user_id
      = [5] :=
  (C3_card_event_recipient_resolution.1 c3Event).1 5 rfl (by decide)

/-! ## Board lists and the position allocator
(app/models/lists.py, app/repository/lists.py, app/repository/cards.py) -/

structure BoardListRow where
  id : Nat
  board_id : Nat
  name : String
  position : ℚ
  is_archived : Bool
  is_deleted : Bool
deriving DecidableEq

/-- `ListCreate` payload; the model default for `position` is 65535.0. -/
structure ListCreate where
  name : String
  position : ℚ := 65535
  is_archived : Bool := false
  board_id : Nat
deriving DecidableEq

/-- The `where` clause of `get_next_position`: the active (non-deleted)
lists of the board. -/
def activeLists (rows : List BoardListRow) (bid : Nat) : List BoardListRow :=
  rows.filter (fun r => r.board_id == bid && !r.is_deleted)

/-- `get_next_position` from app/repository/lists.py: the query orders
the active siblings by position descending and takes the first row, i.e.
the maximum position; add the 65536.0 gap, or return the bare gap when
no active sibling exists. -/
def get_next_position (rows : List BoardListRow) (board_id : Nat) : ℚ :=
  match (activeLists rows board_id).map BoardListRow.position with
  | [] => 65536
  | p :: ps => ps.foldl max p + 65536

/-- `create_list` from app/repository/lists.py: the position is replaced
by the allocator value exactly when `auto_position` is set and the
payload position equals the 65535.0 model default; the fresh row is
appended to the table. -/
def create_list (rows : List BoardListRow) (li : ListCreate)
    (auto_position : Bool) (newId : Nat) :
    BoardListRow × List BoardListRow :=
  let pos :=
    if auto_position = true ∧ li.position = 65535 then
      get_next_position rows li.board_id
    else li.position
  let row : BoardListRow :=
    ⟨newId, li.board_id, li.name, pos, li.is_archived, false⟩
  (row, rows ++ [row])

structure CardRow where
  id : Nat
  list_id : Nat
  title : String
  position : ℚ
  created_by : Option Nat
  is_archived : Bool
  is_deleted : Bool
deriving DecidableEq

/-- `move_card` from app/repository/cards.py: store the caller's list and
position values unchanged. -/
def move_card (card : CardRow) (list_id : Nat) (position : ℚ) : CardRow :=
  { card with list_id := list_id, position := position }

lemma foldl_max_mem : ∀ (ps : List ℚ) (p : ℚ), ps.foldl max p ∈ p :: ps
  | [], _ => by simp
  | x :: xs, p => by
    show xs.foldl max (max p x) ∈ p :: x :: xs
    have ih := foldl_max_mem xs (max p x)
    rcases List.mem_cons.1 ih with h | h
    · rcases max_choice p x with hm | hm
      · exact List.mem_cons.2 (Or.inl (h.trans hm))
      · exact List.mem_cons.2 (Or.inr (List.mem_cons.2 (Or.inl (h.trans hm))))
    · exact List.mem_cons.2 (Or.inr (List.mem_cons.2 (Or.inr h)))

lemma le_foldl_max :
    ∀ (ps : List ℚ) (p q : ℚ), q ∈ p :: ps → q ≤ ps.foldl max p
  | [], p, q, h => by
    simp only [List.mem_singleton] at h
    simp [h]
  | x :: xs, p, q, h => by
    have hhead : max p x ≤ xs.foldl max (max p x) :=
      le_foldl_max xs (max p x) (max p x) (List.mem_cons_self _ _)
    rcases List.mem_cons.1 h with rfl | h2
    · exact le_trans (le_max_left q x) hhead
    · rcases List.mem_cons.1 h2 with rfl | h3
      · exact le_trans (le_max_right p q) hhead
      · exact le_foldl_max xs (max p x) q (List.mem_cons.2 (Or.inr h3))

/-- The first, second and third list created with the default payload on
an initially empty board 7. -/
def demoListCreate : ListCreate := { name := "todo", board_id := 7 }

def demoStep1 : BoardListRow × List BoardListRow :=
  create_list [] demoListCreate true 1

def demoStep2 : BoardListRow × List BoardListRow :=
  create_list demoStep1.2 demoListCreate true 2

def demoStep3 : BoardListRow × List BoardListRow :=
  create_list demoStep2.2 demoListCreate true 3

/-- C5: with no active sibling the allocated position is 65536.0;
otherwise it is the maximum active sibling position plus 65536.0 (the
value minus the gap is one of the active positions and bounds them all);
and three lists created in sequence on an empty board with the default
payload receive 65536.0, 131072.0 and 196608.0. -/
theorem C5_append_position_allocation :
    (∀ rows bid, activeLists rows bid = [] →
        get_next_position rows bid = 65536)
    ∧ (∀ rows bid, activeLists rows bid ≠ [] →
        (get_next_position rows bid - 65536) ∈
            (activeLists rows bid).map BoardListRow.position
        ∧ ∀ p ∈ (activeLists rows bid).map BoardListRow.position,
            p ≤ get_next_position rows bid - 65536)
    ∧ (demoStep1.1.position = 65536 ∧ demoStep2.1.position = 131072
        ∧ demoStep3.1.position = 196608) := by
  refine ⟨?_, ?_, ?_⟩
  · intro rows bid h
    simp [get_next_position, h]
  · intro rows bid h
    rcases hm : (activeLists rows bid).map BoardListRow.position with
      _ | ⟨p, ps⟩
    · exact absurd (List.map_eq_nil_iff.1 hm) h
    · have hg : get_next_position rows bid = ps.foldl max p + 65536 := by
        rw [get_next_position, hm]
      constructor
      · rw [hg, add_sub_cancel_right]
        exact foldl_max_mem ps p
      · intro q hq
        rw [hg, add_sub_cancel_right]
        exact le_foldl_max ps p q hq
  · refine ⟨?_, ?_, ?_⟩ <;>
      norm_num [demoStep1, demoStep2, demoStep3, demoListCreate,
        create_list, get_next_position, activeLists]

/-- C5 witness: the allocator at the empty table and at the table holding
the first demo list. -/
theorem C5_witness :
    get_next_position [] 0 = 65536
    ∧ ((get_next_position demoStep1.2 7 - 65536) ∈
          (activeLists demoStep1.2 7).map BoardListRow.position
       ∧ ∀ p ∈ (activeLists demoStep1.2 7).map BoardListRow.position,
          p ≤ get_next_position demoStep1.2 7 - 65536) :=
  ⟨C5_append_position_allocation.1 [] 0 rfl,
   C5_append_position_allocation.2.1 demoStep1.2 7 (by
     simp [demoStep1, demoListCreate, create_list, activeLists])⟩

/-- A list-creation payload that explicitly supplies the position value
65535.0 — the same value as the model default. -/
def c8ListCreate : ListCreate := { name := "x", position := 65535, board_id := 3 }

/-- C8 counterexample: a caller who explicitly supplies the position
65535.0 when creating a list on an empty board gets the allocator value
65536.0 stored instead of the supplied value — the payload default is a
sentinel, so an explicit 65535.0 is recomputed, refuting the claim that
every explicitly supplied position is stored unchanged. -/
theorem C8_counterexample :
    c8ListCreate.position = 65535
    ∧ (create_list [] c8ListCreate true 1).1.position = 65536
    ∧ (65536 : ℚ) ≠ 65535 := by
  refine ⟨rfl, ?_, by norm_num⟩
  norm_num [create_list, c8ListCreate, get_next_position, activeLists]

/-- C8 amended: a position explicitly supplied when moving a card is
always stored unchanged, and a position supplied when creating a list is
stored unchanged unless it equals the 65535.0 default sentinel (which is
indistinguishable from an omitted position and is replaced by the
allocator value when auto-positioning is on). -/
theorem C8_explicit_position_stored :
    (∀ (card : CardRow) (lid : Nat) (pos : ℚ),
        (move_card card lid pos).position = pos)
    ∧ (∀ rows li auto_pos newId, li.position ≠ 65535 →
        (create_list rows li auto_pos newId).1.position = li.position)
    ∧ (∀ rows li newId,
        (create_list rows li false newId).1.position = li.position) := by
  refine ⟨fun _ _ _ => rfl, ?_, ?_⟩
  · intro rows li auto_pos newId h
    simp [create_list, h]
  · intro rows li newId
    simp [create_list]

/-- C8 witness: an explicit non-sentinel position survives list creation
unchanged. -/
theorem C8_witness :
    (create_list [] { name := "x", position := 99, board_id := 3 }
      true 4).1.position = 99 :=
  C8_explicit_position_stored.2.1 []
    { name := "x", position := 99, board_id := 3 } true 4 (by norm_num)

/-! ## Persistent rows and the in-memory store
(app/models/*.py, app/repository/invitations.py)

Timestamps (`created_at`, `responded_at`, `expires_at`) and the free-text
message fields are not modelled; no modelled behaviour branches on them.
-/

structure UserRow where
  id : Nat
  email : String
  full_name : Option String
  is_superuser : Bool
  is_deleted : Bool
deriving DecidableEq

structure WorkspaceRow where
  id : Nat
  owner_id : Nat
  is_deleted : Bool
deriving DecidableEq

inductive InvitationStatus
  | pending
  | accepted
  | rejected
  | expired
deriving DecidableEq

structure Invitation where
  id : Nat
  workspace_id : Nat
  inviter_id : Nat
  invitee_id : Nat
  role : MemberRole
  status : InvitationStatus
deriving DecidableEq

structure WorkspaceMember where
  user_id : Nat
  workspace_id : Nat
  role : MemberRole
deriving DecidableEq

structure CommentRow where
  id : Nat
  card_id : Nat
  user_id : Nat
  content : String
deriving DecidableEq

structure ChecklistItemRow where
  id : Nat
  card_id : Nat
  title : String
  is_completed : Bool
  is_deleted : Bool
deriving DecidableEq

/-- The database tables the modelled routes touch, plus the outbound
email channel. -/
structure Store where
  users : List UserRow := []
  workspaces : List WorkspaceRow := []
  members : List WorkspaceMember := []
  invitations : List Invitation := []
  board_lists : List BoardListRow := []
  cards : List CardRow := []
  checklist_items : List ChecklistItemRow := []
  comments : List CommentRow := []
  notifications : List NotificationRow := []
  emails : List EmailMessage := []
deriving DecidableEq

def get_invitation_by_id (db : Store) (iid : Nat) : Option Invitation :=
  db.invitations.find? (fun i => i.id == iid)

def get_user_by_id (db : Store) (uid : Nat) : Option UserRow :=
  db.users.find? (fun u => u.id == uid)

/-- `get_user_by_email` filters out soft-deleted users (unlike the lookup
by id). -/
def get_user_by_email (db : Store) (em : String) : Option UserRow :=
  db.users.find? (fun u => u.email == em && !u.is_deleted)

def get_workspace_by_id (db : Store) (wid : Nat) : Option WorkspaceRow :=
  db.workspaces.find? (fun w => w.id == wid)

def get_member_by_user_and_workspace (db : Store) (uid wid : Nat) :
    Option WorkspaceMember :=
  db.members.find? (fun m => m.user_id == uid && m.workspace_id == wid)

def get_pending_invitation (db : Store) (invitee_id wid : Nat) :
    Option Invitation :=
  db.invitations.find? (fun i =>
    i.invitee_id == invitee_id && i.workspace_id == wid &&
      i.status == InvitationStatus.pending)

/-- `respond_to_invitation` from app/repository/invitations.py: set the
status to accepted or rejected and persist the row. -/
def respond_to_invitation_repo (db : Store) (inv : Invitation)
    (accept : Bool) : Invitation × Store :=
  let upd := { inv with
    status := if accept then InvitationStatus.accepted else .rejected }
  (upd,
   { db with
     invitations := db.invitations.map
       (fun i => if i.id == inv.id then upd else i) })

/-- `add_workspace_member` from app/repository/invitations.py. -/
def add_workspace_member (db : Store) (uid wid : Nat) (role : MemberRole) :
    Store :=
  { db with members := db.members ++ [⟨uid, wid, role⟩] }

def addNotification (db : Store) (n : NotificationRow) : Store :=
  { db with notifications := db.notifications ++ [n] }

def addEmail (db : Store) (m : EmailMessage) : Store :=
  { db with emails := db.emails ++ [m] }

/-- What a route handler returns on success: the response value, the
store after the handler's own writes, and the events it dispatched. -/
structure RouteOutput (α : Type) where
  value : α
  db : Store
  dispatched : List Event
deriving DecidableEq

/-- `respond_to_invitation` route from app/api/routes/invitations.py:
404 when the invitation does not exist, 403 when the responder is not the
designated invitee, 400 when the invitation is not pending; otherwise
transition the status, on accept add the membership row, and in both
branches write the inviter's notification row directly (the route
dispatches no event). -/
def respond_route (db : Store) (current_user : Nat) (iid : Nat)
    (accept : Bool) : Except Nat (RouteOutput Invitation) :=
  match get_invitation_by_id db iid with
  | none => .error 404
  | some inv =>
    if inv.invitee_id ≠ current_user then .error 403
    else if inv.status ≠ .pending then .error 400
    else if accept then
      let r := respond_to_invitation_repo db inv true
      let db2 := add_workspace_member r.2 current_user r.1.workspace_id
        r.1.role
      let db3 := addNotification db2
        ⟨r.1.inviter_id, .invitation_accepted, some r.1.workspace_id,
         some "workspace"⟩
      .ok ⟨r.1, db3, []⟩
    else
      let r := respond_to_invitation_repo db inv false
      let db2 := addNotification r.2
        ⟨r.1.inviter_id, .invitation_rejected, some r.1.workspace_id,
         some "workspace"⟩
      .ok ⟨r.1, db2, []⟩

lemma find_after_replace :
    ∀ (l : List Invitation) (tid : Nat) (upd : Invitation), upd.id = tid →
    (l.find? (fun i => i.id == tid)).isSome →
    (l.map (fun i => if i.id == tid then upd else i)).find?
      (fun i => i.id == tid) = some upd
  | [], _, _, _, h => by simp at h
  | x :: xs, tid, upd, hid, h => by
    by_cases hx : x.id = tid
    · have hupd : (upd.id == tid) = true := by simp [hid]
      simp [List.find?_cons, hupd, hx]
    · have hb : (x.id == tid) = false := by simp [hx]
      simp only [List.find?_cons, hb] at h
      simp only [List.map_cons, hb, Bool.false_eq_true, if_false,
        List.find?_cons]
      exact find_after_replace xs tid upd hid (by simpa using h)

/-- The success value of the respond route as the route body builds it. -/
def respondSuccessOut (db : Store) (inv : Invitation) (uid : Nat)
    (accept : Bool) : RouteOutput Invitation :=
  if accept then
    ⟨(respond_to_invitation_repo db inv true).1,
     addNotification
       (add_workspace_member (respond_to_invitation_repo db inv true).2 uid
         inv.workspace_id inv.role)
       ⟨inv.inviter_id, .invitation_accepted, some inv.workspace_id,
        some "workspace"⟩, []⟩
  else
    ⟨(respond_to_invitation_repo db inv false).1,
     addNotification (respond_to_invitation_repo db inv false).2
       ⟨inv.inviter_id, .invitation_rejected, some inv.workspace_id,
        some "workspace"⟩, []⟩

lemma respond_route_ok_eq (db : Store) (uid iid : Nat) (accept : Bool)
    (inv : Invitation) (hfind : get_invitation_by_id db iid = some inv)
    (hinvitee : inv.invitee_id = uid) (hpend : inv.status = .pending) :
    respond_route db uid iid accept =
      .ok (respondSuccessOut db inv uid accept) := by
  simp only [respond_route, hfind]
  rw [if_neg (by simp [hinvitee]), if_neg (by simp [hpend])]
  cases accept with
  | true => rfl
  | false => rfl

lemma respondSuccessOut_value (db : Store) (inv : Invitation) (uid : Nat)
    (accept : Bool) :
    (respondSuccessOut db inv uid accept).value = { inv with
      status := if accept then InvitationStatus.accepted else .rejected } := by
  cases accept with
  | true => rfl
  | false => rfl

lemma respondSuccessOut_members (db : Store) (inv : Invitation) (uid : Nat)
    (accept : Bool) :
    (respondSuccessOut db inv uid accept).db.members =
      (if accept then db.members ++ [⟨uid, inv.workspace_id, inv.role⟩]
       else db.members) := by
  cases accept with
  | true => rfl
  | false => rfl

lemma respondSuccessOut_lookup (db : Store) (uid iid : Nat) (accept : Bool)
    (inv : Invitation) (hfind : get_invitation_by_id db iid = some inv) :
    get_invitation_by_id (respondSuccessOut db inv uid accept).db iid =
      some (respondSuccessOut db inv uid accept).value := by
  have hid : inv.id = iid := by
    have hp := List.find?_some hfind
    simpa using hp
  have hsome : (db.invitations.find? (fun i => i.id == iid)).isSome := by
    rw [show db.invitations.find? (fun i => i.id == iid) =
      get_invitation_by_id db iid from rfl, hfind]
    rfl
  rw [← hid] at hsome
  rw [← hid]
  cases accept with
  | true =>
    exact find_after_replace db.invitations inv.id
      (respond_to_invitation_repo db inv true).1 rfl hsome
  | false =>
    exact find_after_replace db.invitations inv.id
      (respond_to_invitation_repo db inv false).1 rfl hsome

lemma respond_route_ok (db : Store) (uid iid : Nat) (accept : Bool)
    (inv : Invitation) (hfind : get_invitation_by_id db iid = some inv)
    (hinvitee : inv.invitee_id = uid) (hpend : inv.status = .pending) :
    ∃ out, respond_route db uid iid accept = .ok out
      ∧ out.value = { inv with
          status := if accept then InvitationStatus.accepted else .rejected }
      ∧ get_invitation_by_id out.db iid = some out.value :=
  ⟨respondSuccessOut db inv uid accept,
   respond_route_ok_eq db uid iid accept inv hfind hinvitee hpend,
   respondSuccessOut_value db inv uid accept,
   respondSuccessOut_lookup db uid iid accept inv hfind⟩

lemma respond_route_not_invitee (db : Store) (uid iid : Nat) (accept : Bool)
    (inv : Invitation) (hfind : get_invitation_by_id db iid = some inv)
    (hne : inv.invitee_id ≠ uid) :
    respond_route db uid iid accept = .error 403 := by
  rw [respond_route, hfind]
  simp [hne]

lemma respond_route_not_pending (db : Store) (uid iid : Nat) (accept : Bool)
    (inv : Invitation) (hfind : get_invitation_by_id db iid = some inv)
    (hinvitee : inv.invitee_id = uid) (hnp : inv.status ≠ .pending) :
    respond_route db uid iid accept = .error 400 := by
  rw [respond_route, hfind]
  simp [hinvitee, hnp]

/-- Inversion of a successful respond: the invitation existed, was
pending, was addressed to the caller, and the output is the canonical
success output. -/
lemma respond_route_ok_inv (db : Store) (uid iid : Nat) (accept : Bool)
    (out : RouteOutput Invitation)
    (hok : respond_route db uid iid accept = .ok out) :
    ∃ inv, get_invitation_by_id db iid = some inv
      ∧ inv.invitee_id = uid ∧ inv.status = .pending
      ∧ out.value = { inv with
          status := if accept then InvitationStatus.accepted else .rejected }
      ∧ get_invitation_by_id out.db iid = some out.value
      ∧ out.db.members =
          (if accept then
            db.members ++ [⟨uid, inv.workspace_id, inv.role⟩]
          else db.members) := by
  have hok2 := hok
  rw [respond_route] at hok2
  split at hok2
  · exact absurd hok2 (by simp)
  · rename_i inv hfind
    by_cases h1 : inv.invitee_id ≠ uid
    · rw [if_pos h1] at hok2
      exact absurd hok2 (by simp)
    · by_cases h2 : inv.status ≠ .pending
      · rw [if_neg h1, if_pos h2] at hok2
        exact absurd hok2 (by simp)
      · have hinvitee : inv.invitee_id = uid := not_ne_iff.1 h1
        have hpend : inv.status = .pending := not_ne_iff.1 h2
        have heq := respond_route_ok_eq db uid iid accept inv hfind
          hinvitee hpend
        rw [hok] at heq
        injection heq with hout
        refine ⟨inv, hfind, hinvitee, hpend, ?_, ?_, ?_⟩
        · rw [hout]
          exact respondSuccessOut_value db inv uid accept
        · rw [hout]
          exact respondSuccessOut_lookup db uid iid accept inv hfind
        · rw [hout]
          exact respondSuccessOut_members db inv uid accept

/-- C6: responding succeeds exactly for the designated invitee of a
pending invitation, transitioning the status to accepted or rejected as
requested; a respond by anyone else fails with 403, a respond to a
non-pending invitation fails with 400 without producing a new store, and
a second respond right after a successful one fails with 400 and leaves
the stored status at the value the first respond wrote. -/
theorem C6_invitation_single_transition :
    (∀ (db : Store) (uid iid : Nat) (accept : Bool) (inv : Invitation),
      get_invitation_by_id db iid = some inv → inv.invitee_id = uid →
      inv.status = .pending →
      ∃ out, respond_route db uid iid accept = .ok out
        ∧ out.value = { inv with
            status := if accept then InvitationStatus.accepted else .rejected }
        ∧ get_invitation_by_id out.db iid = some out.value)
    ∧ (∀ (db : Store) (uid iid : Nat) (accept : Bool) (inv : Invitation),
      get_invitation_by_id db iid = some inv → inv.invitee_id ≠ uid →
      respond_route db uid iid accept = .error 403)
    ∧ (∀ (db : Store) (uid iid : Nat) (accept : Bool) (inv : Invitation),
      get_invitation_by_id db iid = some inv → inv.invitee_id = uid →
      inv.status ≠ .pending →
      respond_route db uid iid accept = .error 400)
    ∧ (∀ (db : Store) (uid iid : Nat) (accept1 accept2 : Bool)
        (out : RouteOutput Invitation),
      respond_route db uid iid accept1 = .ok out →
      respond_route out.db uid iid accept2 = .error 400
        ∧ get_invitation_by_id out.db iid = some out.value) := by
  refine ⟨respond_route_ok, respond_route_not_invitee,
    respond_route_not_pending, ?_⟩
  intro db uid iid a1 a2 out hok
  obtain ⟨inv, _, hinvitee, _, hval, hlook, _⟩ :=
    respond_route_ok_inv db uid iid a1 out hok
  refine ⟨?_, hlook⟩
  apply respond_route_not_pending out.db uid iid a2 out.value hlook
  · rw [hval]
    exact hinvitee
  · rw [hval]
    cases a1 <;> simp

/-- A store holding one pending invitation: invitation 1 invites user 3
into workspace 10 as a member, sent by user 2. -/
def c6db : Store :=
  { invitations := [⟨1, 10, 2, 3, .member, .pending⟩] }

/-- The canonical output of the first (accepting) respond on `c6db`. -/
def c6out : RouteOutput Invitation :=
  ⟨⟨1, 10, 2, 3, .member, .accepted⟩,
   { invitations := [⟨1, 10, 2, 3, .member, .accepted⟩],
     members := [⟨3, 10, .member⟩],
     notifications := [⟨2, .invitation_accepted, some 10, some "workspace"⟩] },
   []⟩

/-- C6 witness: after user 3 accepts invitation 1, a second respond is
rejected with 400 and the stored status stays accepted. -/
theorem C6_witness :
    respond_route c6out.db 3 1 false = .error 400
      ∧ get_invitation_by_id c6out.db 1 = some c6out.value :=
  C6_invitation_single_transition.2.2.2 c6db 3 1 true false c6out rfl

/-- C9: a successful accept adds, in the same route invocation that
flips the status to accepted, exactly one membership row — for the
invitee, in the invitation's workspace, with the invitation's stored
role; a successful reject flips the status to rejected and adds no
membership row. -/
theorem C9_accept_creates_membership :
    (∀ (db : Store) (uid iid : Nat) (out : RouteOutput Invitation)
        (inv : Invitation),
      get_invitation_by_id db iid = some inv →
      respond_route db uid iid true = .ok out →
      inv.invitee_id = uid
      ∧ out.value.status = .accepted
      ∧ out.db.members =
          db.members ++ [⟨inv.invitee_id, inv.workspace_id, inv.role⟩])
    ∧ (∀ (db : Store) (uid iid : Nat) (out : RouteOutput Invitation),
      respond_route db uid iid false = .ok out →
      out.value.status = .rejected ∧ out.db.members = db.members) := by
  constructor
  · intro db uid iid out inv hfind hok
    obtain ⟨inv2, hfind2, hinvitee, _, hval, _, hmem⟩ :=
      respond_route_ok_inv db uid iid true out hok
    have hsameInv : inv2 = inv := by
      rw [hfind] at hfind2
      injection hfind2 with h
      exact h.symm
    subst hsameInv
    refine ⟨hinvitee, ?_, ?_⟩
    · simp [hval]
    · rw [hmem]
      simp [hinvitee]
  · intro db uid iid out hok
    obtain ⟨inv, _, _, _, hval, _, hmem⟩ :=
      respond_route_ok_inv db uid iid false out hok
    refine ⟨?_, ?_⟩
    · simp [hval]
    · simpa using hmem

/-- C9 witness: the accepting respond on `c6db` creates the membership
row for invitee 3 in workspace 10 with role member. -/
theorem C9_witness :
    (⟨1, 10, 2, 3, .member, .pending⟩ : Invitation).invitee_id = 3
      ∧ c6out.value.status = .accepted
      ∧ c6out.db.members = c6db.members ++ [⟨3, 10, .member⟩] :=
  C9_accept_creates_membership.1 c6db 3 1 c6out
    ⟨1, 10, 2, 3, .member, .pending⟩ (by decide) rfl

/-! ## The mutation routes and their direct notification writes
(app/api/routes/cards.py, checklists.py, comments.py, invitations.py)

Each route model returns the response value, the store after the route's
own writes, and the list of events the route dispatched.  Route handlers
that inline their email HTML are recorded with template "inline".
The permission check of the move-card route delegates to the repository
(`can_edit_card`); it enters the model as the boolean `can_edit`. -/

def routeDispatched {α : Type} : Except Nat (RouteOutput α) → List Event
  | .error _ => []
  | .ok out => out.dispatched

/-- `move_card` route from app/api/routes/cards.py. -/
def move_card_route (db : Store) (current_user : UserRow) (can_edit : Bool)
    (card_id : Nat) (list_id : Nat) (position : ℚ) :
    Except Nat (RouteOutput CardRow) :=
  match db.cards.find? (fun c => c.id == card_id) with
  | none => .error 404
  | some card =>
    if !current_user.is_superuser && !can_edit then .error 403
    else
      match db.board_lists.find? (fun l => l.id == list_id) with
      | none => .error 404
      | some _ =>
        let card2 := move_card card list_id position
        let db2 := { db with
          cards := db.cards.map (fun c => if c.id == card.id then card2 else c) }
        match card.created_by with
        | none => .ok ⟨card2, db2, []⟩
        | some owner_id =>
          if owner_id ≠ current_user.id then
            match get_user_by_id db2 owner_id with
            | none => .ok ⟨card2, db2, []⟩
            | some owner =>
              if !owner.is_deleted then
                .ok ⟨card2,
                  addEmail
                    (addNotification db2
                      ⟨owner.id, .card_moved, some card2.id, some "card"⟩)
                    ⟨owner.email, "inline"⟩, []⟩
              else .ok ⟨card2, db2, []⟩
          else .ok ⟨card2, db2, []⟩

/-- `toggle_checklist_item` route from app/api/routes/checklists.py. -/
def toggle_checklist_route (db : Store) (current_user : UserRow)
    (item_id : Nat) : Except Nat (RouteOutput ChecklistItemRow) :=
  match db.checklist_items.find? (fun i => i.id == item_id) with
  | none => .error 404
  | some item =>
    let item2 : ChecklistItemRow :=
      { item with is_completed := !item.is_completed }
    let db2 : Store := { db with
      checklist_items := db.checklist_items.map
        (fun i => if i.id == item.id then item2 else i) }
    match db2.cards.find? (fun c => c.id == item2.card_id) with
    | none => .ok ⟨item2, db2, []⟩
    | some card =>
      match card.created_by with
      | none => .ok ⟨item2, db2, []⟩
      | some owner_id =>
        if owner_id ≠ current_user.id then
          match get_user_by_id db2 owner_id with
          | none => .ok ⟨item2, db2, []⟩
          | some owner =>
            if !owner.is_deleted then
              .ok ⟨item2,
                addEmail
                  (addNotification db2
                    ⟨owner.id, .checklist_toggled, some card.id, some "card"⟩)
                  ⟨owner.email, "inline"⟩, []⟩
            else .ok ⟨item2, db2, []⟩
        else .ok ⟨item2, db2, []⟩

/-- `create_comment` route from app/api/routes/comments.py. -/
def create_comment_route (db : Store) (current_user : UserRow)
    (card_id : Nat) (content : String) (newCommentId : Nat) :
    Except Nat (RouteOutput CommentRow) :=
  match db.cards.find? (fun c => c.id == card_id) with
  | none => .error 404
  | some card =>
    let comment : CommentRow := ⟨newCommentId, card_id, current_user.id, content⟩
    let db2 := { db with comments := db.comments ++ [comment] }
    match card.created_by with
    | none => .ok ⟨comment, db2, []⟩
    | some owner_id =>
      if owner_id ≠ current_user.id then
        match get_user_by_id db2 owner_id with
        | none => .ok ⟨comment, db2, []⟩
        | some owner =>
          if !owner.is_deleted then
            .ok ⟨comment,
              addEmail
                (addNotification db2
                  ⟨owner.id, .comment_added, some card.id, some "card"⟩)
                ⟨owner.email, "inline"⟩, []⟩
          else .ok ⟨comment, db2, []⟩
      else .ok ⟨comment, db2, []⟩

/-- A role as the invitations repository reports it: the literal string
"owner" for the workspace owner, otherwise the member row's role. -/
inductive InvRole
  | ownerR
  | memberR (r : MemberRole)
deriving DecidableEq

/-- `get_user_role_in_workspace` from app/repository/invitations.py. -/
def get_user_role_in_workspace_inv (db : Store) (uid wid : Nat) :
    Option InvRole :=
  match get_workspace_by_id db wid with
  | none => none
  | some w =>
    if w.owner_id == uid then some .ownerR
    else
      match get_member_by_user_and_workspace db uid wid with
      | some m => some (.memberR m.role)
      | none => none

structure WorkspaceInvitationCreate where
  workspace_id : Nat
  invitee_email : Option String := none
  invitee_id : Option Nat := none
  role : MemberRole := .member
deriving DecidableEq

/-- `create_invitation` route from app/api/routes/invitations.py: after
the guards, the invitation row is created pending and the invitee's
notification row is written directly by the route. -/
def create_invitation_route (db : Store) (current_user : UserRow)
    (inv_in : WorkspaceInvitationCreate) (newInvId : Nat) :
    Except Nat (RouteOutput Invitation) :=
  match get_workspace_by_id db inv_in.workspace_id with
  | none => .error 404
  | some ws =>
    if ws.is_deleted then .error 404
    else
      let role := get_user_role_in_workspace_inv db current_user.id ws.id
      if ¬(role = some .ownerR ∨ role = some (.memberR .admin)) ∧
          ¬current_user.is_superuser then .error 403
      else
        let invitee :=
          match inv_in.invitee_id with
          | some uid2 => get_user_by_id db uid2
          | none =>
            match inv_in.invitee_email with
            | some em => get_user_by_email db em
            | none => none
        match invitee with
        | none => .error 404
        | some invitee =>
          if invitee.id == current_user.id then .error 400
          else if invitee.id == ws.owner_id then .error 400
          else if (get_member_by_user_and_workspace db invitee.id
              ws.id).isSome then .error 400
          else if (get_pending_invitation db invitee.id ws.id).isSome then
            .error 400
          else
            let invitation : Invitation :=
              ⟨newInvId, ws.id, current_user.id, invitee.id, inv_in.role,
               .pending⟩
            let db2 := { db with
              invitations := db.invitations ++ [invitation] }
            .ok ⟨invitation,
              addNotification db2
                ⟨invitee.id, .workspace_invitation, some invitation.id,
                 some "invitation"⟩, []⟩

/-- User 9, a plain user who owns workspace 10 in the fixture below. -/
def c7user : UserRow := ⟨9, "mover@x", none, false, false⟩

/-- Fixture: card 1 (created by user 7) in list 3 on a board whose lists
include list 2, a checklist item 4 on card 1, workspace 10 owned by
user 9, and no notification rows. -/
def c7db : Store :=
  { users := [⟨7, "owner@x", none, false, false⟩,
              ⟨9, "mover@x", none, false, false⟩],
    workspaces := [⟨10, 9, false⟩],
    board_lists := [⟨2, 1, "done", 65536, false, false⟩],
    cards := [⟨1, 3, "c", 65536, some 7, false, false⟩],
    checklist_items := [⟨4, 1, "item", false, false⟩] }

/-- C7 counterexample: user 9 moving card 1 (created by user 7) makes the
route itself write a Notification row — the result store holds one row,
written in the route body, while the route dispatched no event at all;
the claim that route functions write no Notification row is false. -/
theorem C7_counterexample :
    ((move_card_route c7db c7user true 1 2 99).toOption.map
        (fun out => (out.db.notifications, out.dispatched)))
      = some ([⟨7, .card_moved, some 1, some "card"⟩], [])
    ∧ c7db.notifications = [] :=
  ⟨rfl, rfl⟩

/-- C7 amended: the card-move, checklist-toggle, comment, invitation-send
and invitation-respond routes never dispatch an event, and each writes
its Notification row directly in the route body (one row appears in the
result store of each route on the fixture, where the store started with
zero rows). -/
theorem C7_routes_write_notifications_directly :
    (∀ (db : Store) (u : UserRow) (ce : Bool) (cid lid : Nat) (pos : ℚ),
        routeDispatched (move_card_route db u ce cid lid pos) = [])
    ∧ (∀ (db : Store) (u : UserRow) (iid : Nat),
        routeDispatched (toggle_checklist_route db u iid) = [])
    ∧ (∀ (db : Store) (u : UserRow) (cid : Nat) (content : String)
        (ncid : Nat),
        routeDispatched (create_comment_route db u cid content ncid) = [])
    ∧ (∀ (db : Store) (u : UserRow) (inv_in : WorkspaceInvitationCreate)
        (nid : Nat),
        routeDispatched (create_invitation_route db u inv_in nid) = [])
    ∧ (∀ (db : Store) (uid iid : Nat) (accept : Bool),
        routeDispatched (respond_route db uid iid accept) = [])
    ∧ ((move_card_route c7db c7user true 1 2 99).toOption.map
        (fun out => out.db.notifications.length) = some 1)
    ∧ ((toggle_checklist_route c7db c7user 4).toOption.map
        (fun out => out.db.notifications.length) = some 1)
    ∧ ((create_comment_route c7db c7user 1 "hi" 11).toOption.map
        (fun out => out.db.notifications.length) = some 1)
    ∧ ((create_invitation_route c7db c7user ⟨10, none, some 7, .member⟩
        21).toOption.map (fun out => out.db.notifications.length) = some 1)
    ∧ ((respond_route c6db 3 1 true).toOption.map
        (fun out => out.db.notifications.length) = some 1) := by
  refine ⟨?_, ?_, ?_, ?_, ?_, rfl, rfl, rfl, rfl, rfl⟩
  · intro db u ce cid lid pos
    unfold move_card_route
    dsimp only
    repeat' split
    all_goals rfl
  · intro db u iid
    unfold toggle_checklist_route
    dsimp only
    repeat' split
    all_goals rfl
  · intro db u cid content ncid
    unfold create_comment_route
    dsimp only
    repeat' split
    all_goals rfl
  · intro db u inv_in nid
    unfold create_invitation_route
    dsimp only
    repeat' split
    all_goals rfl
  · intro db uid iid accept
    unfold respond_route
    dsimp only
    repeat' split
    all_goals rfl

end FakeTrello
